import Mathlib

/-!
Verification development for `ncurses_multi_ping.py`, a terminal multi-host
ping monitor.  The program is shallowly embedded: the probe function
`ping_host`, the per-host polling loop body (`worker`), and the key handling
of the render loop (`refresher`) become pure Lean functions over explicit
environment inputs (what the external ping process did, which key was
pressed, why a wait ended).  Floating-point values (round-trip times, the
poll interval) are modelled as exact rationals.
-/

/-- Default seconds between automatic pings (`DEFAULT_INTERVAL = 2.0`). -/
def DEFAULT_INTERVAL : ℚ := 2.0

/-- Seconds passed to `ping -W` (`PING_TIMEOUT = 1`). -/
def PING_TIMEOUT : Nat := 1

/-- Whether `pat` occurs at the head of `s` (character-by-character match). -/
def strStartsWith : List Char → List Char → Bool
  | _, [] => true
  | [], _ :: _ => false
  | c :: cs, p :: ps => c = p && strStartsWith cs ps

/-- Index of the first occurrence of `pat` in `s`, as in Python
`s.index(pat)`; `none` when `pat` does not occur, matching `pat in s`
being false. -/
def findSub (pat : List Char) : List Char → Option Nat
  | [] => if pat = [] then some 0 else none
  | c :: cs =>
    if strStartsWith (c :: cs) pat then some 0
    else (findSub pat cs).map (fun n => n + 1)

/-- ASCII whitespace recognised by Python `str.split()` with no argument. -/
def isPySpace (c : Char) : Bool :=
  c = ' ' || c = '\t' || c = '\n' || c = '\r' || c = '\x0b' || c = '\x0c'

/-- First whitespace-delimited token of `s`, as in Python
`s.split()[0]`; `none` models the `IndexError` raised when `s` has no
token (empty or all whitespace). -/
def firstToken (s : List Char) : Option (List Char) :=
  match s.dropWhile isPySpace with
  | [] => none
  | c :: cs => (c :: cs).takeWhile (fun d => !(isPySpace d))

/-- Optional leading sign of a numeric literal: returns (isNegative, rest). -/
def pySign : List Char → Bool × List Char
  | '-' :: rest => (true, rest)
  | '+' :: rest => (false, rest)
  | s => (false, s)

/-- Value of a digit string, most significant digit first. -/
def digitsToNat (ds : List Char) : Nat :=
  ds.foldl (fun a c => 10 * a + (c.toNat - 48)) 0

/-- Exponent tail after the `e`/`E`: optional sign then one or more
digits, nothing trailing. -/
def pyExpTail (rest : List Char) : Option Int :=
  let p := pySign rest
  let ds := p.2.takeWhile Char.isDigit
  if ds ≠ [] ∧ p.2.dropWhile Char.isDigit = [] then
    some (if p.1 then -(digitsToNat ds : Int) else (digitsToNat ds : Int))
  else none

/-- Optional exponent part of a numeric literal (`some 0` when absent,
`none` when malformed). -/
def pyExp : List Char → Option Int
  | [] => some 0
  | 'e' :: rest => pyExpTail rest
  | 'E' :: rest => pyExpTail rest
  | _ => none

/-- Model of Python `float(s)` on finite decimal literals, returning an
exact rational: optional sign, digits with an optional decimal point
(at least one digit overall), optional exponent.  `none` models the
`ValueError` on any other input.  (The special literals `inf`/`nan`
have no rational value and never occur as ping round-trip times.) -/
def pyFloat (s : List Char) : Option ℚ :=
  let p := pySign s
  let intDs := p.2.takeWhile Char.isDigit
  let s2 := p.2.dropWhile Char.isDigit
  let q :=
    match s2 with
    | '.' :: rest => (rest.takeWhile Char.isDigit, rest.dropWhile Char.isDigit)
    | _ => ([], s2)
  if intDs = [] ∧ q.1 = [] then none
  else
    match pyExp q.2 with
    | none => none
    | some e =>
      let mag : ℚ :=
        (digitsToNat (intDs ++ q.1) : ℚ) / (10 : ℚ) ^ q.1.length * (10 : ℚ) ^ e
      some (if p.1 then -mag else mag)

/-- The marker searched for in the ping output: the characters of
`"time="`. -/
def TIME_MARKER : List Char := ['t', 'i', 'm', 'e', '=']

/-- Whether the decoded standard output contains the `time=` marker
(Python `"time=" in out`). -/
def hasMarker (out : List Char) : Bool :=
  (findSub TIME_MARKER out).isSome

/-- Final step of the inner `try` block of `ping_host`: parse the token
with `float`; the `ValueError` on an unparsable token is caught and
yields `(True, None)`, a parsed value yields `(True, rtt)`. -/
def parse_token (tok : List Char) : Bool × Option ℚ :=
  match pyFloat tok with
  | none => (true, none)
  | some rtt => (true, some rtt)

/-- Remainder of the inner `try` block: split off the first
whitespace-delimited token of the window (the `IndexError` on a missing
token is caught and yields `(True, None)`) and parse it. -/
def parse_after_marker (rest : List Char) : Bool × Option ℚ :=
  match firstToken rest with
  | none => (true, none)
  | some tok => parse_token tok

/-- Full parsing step of `ping_host`: locate the `time=` marker and hand
the 20-character window after it to `parse_after_marker`; without the
marker the result is `(False, None)`. -/
def parse_ping_output (out : List Char) : Bool × Option ℚ :=
  match findSub TIME_MARKER out with
  | none => (false, none)
  | some i => parse_after_marker ((out.drop (i + 5)).take 20)

/-- How the environment behaves during one invocation of `ping_host`:
the `ping` executable is missing (`shutil.which` returns `None`), process
creation raises an OS error, `asyncio.wait_for` times out after
`PING_TIMEOUT + 2` seconds, or the process completes with an exit code and
decoded standard output. -/
inductive PingEnv where
  | noPing : PingEnv
  | spawnError (msg : String) : PingEnv
  | timeout : PingEnv
  | completed (exitCode : Int) (stdout : List Char) : PingEnv

/-- Result of one `ping_host` invocation: either the pair
`(is_up, rtt_ms_or_None)` it returns, or the message of the exception it
raises; `procKilled` records whether `proc.kill()` was executed on the
in-flight process. -/
structure PingResult where
  outcome : Except String (Bool × Option ℚ)
  procKilled : Bool

/-- Embedding of `ping_host`: raise when `shutil.which("ping")` finds no
executable; propagate a process-creation exception; on timeout of
`proc.communicate()` kill the process and return `(False, None)`; otherwise
parse the decoded standard output (the exit code is not consulted). -/
def ping_host : PingEnv → PingResult
  | PingEnv.noPing =>
    { outcome := Except.error "System ping nicht gefunden", procKilled := false }
  | PingEnv.spawnError msg => { outcome := Except.error msg, procKilled := false }
  | PingEnv.timeout => { outcome := Except.ok (false, none), procKilled := true }
  | PingEnv.completed _ out =>
    { outcome := Except.ok (parse_ping_output out), procKilled := false }

/-- Per-host record created by `HostStatus.__init__`: `last_result` is
`None`/`True`/`False` for Unknown/Up/Down, `last_rtt` an optional
round-trip time in milliseconds, `last_time` an optional timestamp. -/
structure HostStatus where
  host : String
  last_result : Option Bool
  last_rtt : Option ℚ
  last_time : Option Nat

/-- Initial record for a host: all three status fields are `None`. -/
def HostStatus.init (h : String) : HostStatus :=
  { host := h, last_result := none, last_rtt := none, last_time := none }

/-- Why the `Waiting` phase of the worker ended: `interval_event.wait()`
completed because the event was set, or `asyncio.wait_for` raised
`TimeoutError` after `interval_ref['val']` seconds. -/
inductive WakeCause where
  | signal : WakeCause
  | timeout : WakeCause

/-- Environment of one iteration of the `worker` loop body: how the probe
invocation behaves, the current timestamp (`datetime.now()`), and why the
waiting phase ends. -/
structure WorkerInput where
  env : PingEnv
  now : Nat
  wake : WakeCause

/-- The probing part of the `worker` body: call `ping_host` and catch any
exception as `(False, None)` (`except Exception: up, rtt = False, None`). -/
def worker_probe (env : PingEnv) : Bool × Option ℚ :=
  match (ping_host env).outcome with
  | Except.error _ => (false, none)
  | Except.ok r => r

/-- The state-update part of the `worker` body: when not paused, write the
probe outcome and the current timestamp into the host record; when paused,
leave it untouched (`if not pause_flag['paused']`). -/
def worker_update (paused : Bool) (inp : WorkerInput) (hs : HostStatus) : HostStatus :=
  if paused then hs
  else
    { hs with
      last_result := some (worker_probe inp.env).1
      last_rtt := (worker_probe inp.env).2
      last_time := some inp.now }

/-- The waiting part of the `worker` body acting on the shared event: when
the wait ends because the event fired, `interval_event.clear()` runs and
the event is unset; when it ends by `TimeoutError`, the event is left as it
was (`except asyncio.TimeoutError: pass`). -/
def worker_wait : WakeCause → Bool → Bool
  | WakeCause.signal, _ => false
  | WakeCause.timeout, es => es

/-- One full iteration of the infinite `while True` loop of `worker`,
returning the new host record and the new state of the shared event; the
loop then re-enters its probing step. -/
def worker_cycle (paused : Bool) (inp : WorkerInput) (hs : HostStatus) (eventSet : Bool) :
    HostStatus × Bool :=
  (worker_update paused inp hs, worker_wait inp.wake eventSet)

/-- Several consecutive iterations of the `worker` loop with a constant
pause flag, threading host record and event state. -/
def run_cycles (paused : Bool) : List WorkerInput → HostStatus → Bool → HostStatus × Bool
  | [], hs, es => (hs, es)
  | inp :: rest, hs, es =>
    run_cycles paused rest (worker_cycle paused inp hs es).1 (worker_cycle paused inp hs es).2

/-- The shared mutable control state of the render loop: the pause flag
(`pause_flag['paused']`), the poll interval (`interval_ref['val']`) and the
shared event (`interval_event`). -/
structure ControlState where
  paused : Bool
  interval_val : ℚ
  event_set : Bool

/-- Key dispatch of `refresher` for one keypress (curses key codes):
`q`/`Q` (113/81) quit; `p`/`P` (112/80) toggle pause; `u`/`U` (117/85) set
the shared event; `+` (43) sets the interval to
`max(0.2, interval - 0.2)`; `-` (45) sets it to `interval + 0.2`; any other
code (including -1 for no key) changes nothing.  The second component is
whether the loop breaks (quit). -/
def refresher_key (key : Int) (c : ControlState) : ControlState × Bool :=
  if key = 113 ∨ key = 81 then (c, true)
  else if key = 112 ∨ key = 80 then ({ c with paused := !c.paused }, false)
  else if key = 117 ∨ key = 85 then ({ c with event_set := true }, false)
  else if key = 43 then
    ({ c with interval_val := max 0.2 (c.interval_val - 0.2) }, false)
  else if key = 45 then ({ c with interval_val := c.interval_val + 0.2 }, false)
  else (c, false)

/-- Effect of one press of `+` (the decrease-interval key) on the interval
value. -/
def dec_step (v : ℚ) : ℚ :=
  ((refresher_key 43 { paused := false, interval_val := v, event_set := false }).1).interval_val

/-- Interval value after `n` consecutive presses of the decrease key. -/
def dec_iter : Nat → ℚ → ℚ
  | 0, v => v
  | n + 1, v => dec_iter n (dec_step v)

/-- Host records reachable by a worker: the freshly initialised record, and
anything produced from a reachable record by one iteration of the worker
loop (with any pause flag, probe environment, timestamp, wake cause and
event state). -/
inductive ReachableHS : HostStatus → Prop where
  | init (h : String) : ReachableHS (HostStatus.init h)
  | step (hs : HostStatus) (paused : Bool) (inp : WorkerInput) (es : Bool) :
      ReachableHS hs → ReachableHS (worker_cycle paused inp hs es).1

/-- Without the `time=` marker in the output, the parsing step returns
`(False, None)` (the `else` branch of `ping_host`). -/
theorem parse_no_marker (out : List Char) (h : hasMarker out = false) :
    parse_ping_output out = (false, none) := by
  unfold hasMarker at h
  unfold parse_ping_output
  cases hf : findSub TIME_MARKER out with
  | none => rfl
  | some i => rw [hf] at h; simp at h

/-- Whatever the token, its parse reports the probe as up. -/
theorem parse_token_fst (tok : List Char) : (parse_token tok).1 = true := by
  unfold parse_token
  cases pyFloat tok with
  | none => rfl
  | some rtt => rfl

/-- Whatever window follows the marker, the inner `try` block reports the
probe as up. -/
theorem parse_after_marker_fst (rest : List Char) :
    (parse_after_marker rest).1 = true := by
  unfold parse_after_marker
  cases firstToken rest with
  | none => rfl
  | some tok => exact parse_token_fst tok

/-- The up/down component of the parsing step coincides with the presence
of the `time=` marker, whatever follows the marker. -/
theorem parse_fst_eq_marker (out : List Char) :
    (parse_ping_output out).1 = hasMarker out := by
  unfold parse_ping_output hasMarker
  cases findSub TIME_MARKER out with
  | none => rfl
  | some i => exact parse_after_marker_fst _

/-- The probing step of the worker either reports up, or reports exactly
`(False, None)`: a round-trip time is never recorded together with a down
result. -/
theorem worker_probe_cases (env : PingEnv) :
    (worker_probe env).1 = true ∨ worker_probe env = (false, none) := by
  cases env with
  | noPing => exact Or.inr rfl
  | spawnError msg => exact Or.inr rfl
  | timeout => exact Or.inr rfl
  | completed code out =>
    by_cases hm : hasMarker out = true
    · left
      show (parse_ping_output out).1 = true
      rw [parse_fst_eq_marker out]; exact hm
    · right
      show parse_ping_output out = (false, none)
      exact parse_no_marker out (by simpa using hm)

/-- Every press of the decrease-interval key leaves the interval at least
0.2 (`max(0.2, interval - 0.2)`). -/
theorem dec_step_floor (v : ℚ) : (0.2 : ℚ) ≤ dec_step v := by
  show (0.2 : ℚ) ≤ max 0.2 (v - 0.2)
  exact le_max_left _ _

/-- Any number of consecutive decrease presses keeps the interval at least
0.2, provided it starts at least 0.2. -/
theorem dec_iter_floor (n : Nat) :
    ∀ v : ℚ, (0.2 : ℚ) ≤ v → (0.2 : ℚ) ≤ dec_iter n v := by
  induction n with
  | zero => intro v hv; exact hv
  | succ n ih => intro v _; exact ih (dec_step v) (dec_step_floor v)

/-- Claim C1, counterexample.  The claim says a missing ping executable is never
recorded as a per-probe Down on any host state; but in the code the check
`shutil.which("ping")` sits inside `ping_host`, its `RuntimeError` is
caught by the worker's bare `except Exception`, and the very next write
records Down: after one unpaused worker iteration with the executable
missing, the host record holds `last_result = False`. -/
theorem C1_counterexample :
    ((worker_cycle false { env := PingEnv.noPing, now := 0, wake := WakeCause.timeout }
        (HostStatus.init "example.org") false).1).last_result = some false := rfl

/-- Claim C1, amended.  When the ping executable is unavailable, `ping_host`
raises on each probe invocation (there is no one-time startup check and no
abort); the worker absorbs the exception and records Down with no
round-trip time on that host's state. -/
theorem C1_missing_ping_is_per_probe_down :
    (ping_host PingEnv.noPing).outcome = Except.error "System ping nicht gefunden"
    ∧ ∀ (hs : HostStatus) (es : Bool) (t : Nat) (w : WakeCause),
        ((worker_cycle false { env := PingEnv.noPing, now := t, wake := w } hs es).1).last_result
            = some false
        ∧ ((worker_cycle false { env := PingEnv.noPing, now := t, wake := w } hs es).1).last_rtt
            = none :=
  ⟨rfl, fun _ _ _ _ => ⟨rfl, rfl⟩⟩

/-- Claim C2.  On every host record reachable from the initial record by worker
iterations, `last_rtt` is present only when `last_result` is Up: whenever
`last_result` is Down (`False`) or Unknown (`None`), `last_rtt` is `None`. -/
theorem C2_rtt_only_when_up (hs : HostStatus) (hr : ReachableHS hs)
    (hne : hs.last_result ≠ some true) : hs.last_rtt = none := by
  revert hne
  induction hr with
  | init h => intro _; rfl
  | step hs0 paused inp es hr0 ih =>
    intro hne
    cases paused with
    | true => exact ih hne
    | false =>
      rcases worker_probe_cases inp.env with h1 | h1
      · exfalso
        apply hne
        show some (worker_probe inp.env).1 = some true
        rw [h1]
      · show (worker_probe inp.env).2 = none
        rw [h1]

/-- Claim C2, witness: a concrete reachable record (one timed-out probe on a
fresh host) whose `last_result` is Down indeed has no `last_rtt`. -/
theorem C2_rtt_only_when_up_witness :
    ((worker_cycle false { env := PingEnv.timeout, now := 5, wake := WakeCause.timeout }
        (HostStatus.init "host1") false).1).last_rtt = none :=
  C2_rtt_only_when_up _
    (ReachableHS.step (HostStatus.init "host1") false
      { env := PingEnv.timeout, now := 5, wake := WakeCause.timeout } false
      (ReachableHS.init "host1"))
    (by with_unfolding_all decide)

/-- Claim C3.  The output parser yields `(True, 17.3)` on a line containing
`time=17.3 ms`; `(False, None)` on any output without the `time=` marker;
and `(True, None)` — up with no round-trip time, never Down — when the
marker is present but the following token is not a parsable float. -/
theorem C3_parser_cases :
    parse_ping_output
        (String.toList "64 bytes from 8.8.8.8: icmp seq=1 ttl=115 time=17.3 ms")
      = (true, some 17.3)
    ∧ (∀ out : List Char, hasMarker out = false → parse_ping_output out = (false, none))
    ∧ parse_ping_output (String.toList "reply with time=abc ms marker") = (true, none) :=
  ⟨by with_unfolding_all decide, fun out h => parse_no_marker out h,
    by with_unfolding_all decide⟩

/-- Claim C3, witness: a concrete marker-free output parses to `(False, None)`. -/
theorem C3_parser_cases_witness :
    parse_ping_output (String.toList "Request timed out for icmp seq 1") = (false, none) :=
  C3_parser_cases.2.1 _ (by with_unfolding_all decide)

/-- Claim C4.  Starting from the default interval 2.0, one press of the decrease
key yields 1.8; each decrease press sets the interval to
`max(0.2, v - 0.2)` and each increase press to `v + 0.2` with no ceiling;
after any finite sequence of decrease presses from the default the
interval stays at least 0.2. -/
theorem C4_interval_bounds :
    dec_step DEFAULT_INTERVAL = 1.8
    ∧ (∀ c : ControlState,
        ((refresher_key 43 c).1).interval_val = max 0.2 (c.interval_val - 0.2)
        ∧ ((refresher_key 45 c).1).interval_val = c.interval_val + 0.2)
    ∧ ∀ n : Nat, (0.2 : ℚ) ≤ dec_iter n DEFAULT_INTERVAL :=
  ⟨by with_unfolding_all decide, fun _ => ⟨rfl, rfl⟩,
    fun n => dec_iter_floor n DEFAULT_INTERVAL (by with_unfolding_all decide)⟩

/-- Claim C5.  A worker iteration entered with the pause flag true performs no
state write at all — over any number of consecutive paused iterations the
host record is exactly unchanged — and an iteration entered with the flag
false writes the probe outcome and a fresh timestamp. -/
theorem C5_pause_skips_updates :
    (∀ (inp : WorkerInput) (hs : HostStatus) (es : Bool),
        (worker_cycle true inp hs es).1 = hs)
    ∧ (∀ (inps : List WorkerInput) (hs : HostStatus) (es : Bool),
        (run_cycles true inps hs es).1 = hs)
    ∧ ∀ (inp : WorkerInput) (hs : HostStatus) (es : Bool),
        ((worker_cycle false inp hs es).1).last_result = some (worker_probe inp.env).1
        ∧ ((worker_cycle false inp hs es).1).last_rtt = (worker_probe inp.env).2
        ∧ ((worker_cycle false inp hs es).1).last_time = some inp.now := by
  refine ⟨fun inp hs es => rfl, ?_, fun inp hs es => ⟨rfl, rfl, rfl⟩⟩
  intro inps
  induction inps with
  | nil => intro hs es; rfl
  | cons i rest ih => intro hs es; exact ih hs (worker_wait i.wake es)

/-- Claim C6.  A timed-out probe kills the in-flight process and returns
`(False, None)`; an exception during invocation propagates out of
`ping_host` as an error value; and in both cases the worker iteration —
which catches every exception rather than letting it escape the loop —
records Down on the host's state. -/
theorem C6_probe_failure_recorded_down :
    ping_host PingEnv.timeout
        = { outcome := Except.ok (false, none), procKilled := true }
    ∧ (∀ msg : String, (ping_host (PingEnv.spawnError msg)).outcome = Except.error msg)
    ∧ ∀ (t : Nat) (w : WakeCause) (hs : HostStatus) (es : Bool) (msg : String),
        ((worker_cycle false { env := PingEnv.timeout, now := t, wake := w }
            hs es).1).last_result = some false
        ∧ ((worker_cycle false { env := PingEnv.spawnError msg, now := t, wake := w }
            hs es).1).last_result = some false :=
  ⟨rfl, fun _ => rfl, fun _ _ _ _ _ => ⟨rfl, rfl⟩⟩

/-- Claim C7.  When the waiting phase of a worker iteration ends because the
shared event fired, the event is cleared (consumed); when it ends because
the interval elapsed, the event state is left untouched; in both cases the
iteration completes and the loop re-enters its probing step. -/
theorem C7_signal_consumed_timeout_not :
    ∀ (p : Bool) (env : PingEnv) (t : Nat) (hs : HostStatus) (es : Bool),
      (worker_cycle p { env := env, now := t, wake := WakeCause.signal } hs es).2 = false
      ∧ (worker_cycle p { env := env, now := t, wake := WakeCause.timeout } hs es).2 = es :=
  fun _ _ _ _ _ => ⟨rfl, rfl⟩

/-- Claim C9.  `ping_host` never consults the exit code of the spawned process:
its result is the same function of the standard output for every exit
code, and the up/down classification is exactly the presence of the
`time=` marker — a process exiting non-zero but printing `time=` is
reported Up, a process exiting zero without it is reported Down. -/
theorem C9_exit_code_ignored :
    (∀ (c₁ c₂ : Int) (out : List Char),
        ping_host (PingEnv.completed c₁ out) = ping_host (PingEnv.completed c₂ out))
    ∧ (∀ (c : Int) (out : List Char),
        (ping_host (PingEnv.completed c out)).outcome = Except.ok (parse_ping_output out)
        ∧ (parse_ping_output out).1 = hasMarker out)
    ∧ (ping_host (PingEnv.completed 1 (String.toList "64 bytes: time=3.4 ms"))).outcome
        = Except.ok (true, some 3.4)
    ∧ (ping_host (PingEnv.completed 0
          (String.toList "1 packets transmitted, 0 received"))).outcome
        = Except.ok (false, none) :=
  ⟨fun _ _ _ => rfl, fun c out => ⟨rfl, parse_fst_eq_marker out⟩,
    congrArg Except.ok (by with_unfolding_all decide),
    congrArg Except.ok (by with_unfolding_all decide)⟩

/-- Claim C10.  If the shared event fires while the pause flag is true, the
waiting worker consumes the event (it ends unset) but performs no probe
and leaves its host record exactly unchanged: an immediate-update request
during pause is silently discarded. -/
theorem C10_wake_during_pause_discarded :
    ∀ (env : PingEnv) (t : Nat) (hs : HostStatus) (es : Bool),
      (worker_cycle true { env := env, now := t, wake := WakeCause.signal } hs es).1 = hs
      ∧ (worker_cycle true { env := env, now := t, wake := WakeCause.signal } hs es).2 = false :=
  fun _ _ _ _ => ⟨rfl, rfl⟩
